import Mathlib

/-!
Verification development for the ccs-esp32 controller firmware
(src/main/main.c — Modbus master polling/alarm engine and register registry;
src/main/rest_server.c — REST protocol bridge).

The C sources are shallowly embedded: the descriptor table, the storage
resolution function `master_get_param_data`, the polling/alarm loop of
`master_operation_func`, the startup directed read in `app_main`, and the
two HTTP handlers `set_mb_handler` / `get_mb_handler`.  Field-bus exchanges
are modelled by an explicit transport oracle indexed by (sweep, cid);
machine state (the storage blocks, the device-side echo register, the alarm
flag and the persistent `err` variable) is threaded explicitly.
-/

set_option maxHeartbeats 1000000

namespace CcsEsp32

/-- Register area kinds, mirroring `mb_param_type_t` of the Modbus controller
API: Holding, Input, Coil and Discrete registers. -/
inductive RegKind
  | holding
  | input
  | coil
  | discrete
deriving DecidableEq, Repr

/-- Characteristic value types, mirroring `mb_descr_type_t`
(PARAM_TYPE_U8/U16/U32/FLOAT/ASCII). -/
inductive ParamType
  | u8
  | u16
  | u32
  | float
  | ascii
deriving DecidableEq, Repr

/-- Parameter options, mirroring `mb_parameter_opt_t`: a union of
(opt1,opt2,opt3) with (min,max,step); for digital kinds `opt1` is the
bitmask. -/
structure ParamOpts where
  opt1 : Int
  opt2 : Int
  opt3 : Int
deriving DecidableEq, Repr

/-- Union alias `min = opt1` of `mb_parameter_opt_t`. -/
def ParamOpts.minv (o : ParamOpts) : Int := o.opt1

/-- Union alias `max = opt2` of `mb_parameter_opt_t`. -/
def ParamOpts.maxv (o : ParamOpts) : Int := o.opt2

/-- Characteristic descriptor, mirroring `mb_parameter_descriptor_t` as used
in main.c (access-mode field omitted: the embedded code never reads it). -/
structure MbParameterDescriptor where
  cid : Nat
  param_key : String
  param_units : String
  mb_slave_addr : Nat
  mb_param_type : RegKind
  mb_reg_start : Nat
  mb_size : Nat
  param_offset : Nat
  param_type : ParamType
  param_size : Nat
  param_opts : ParamOpts
deriving DecidableEq, Repr

/-- MASTER_MAX_RETRY, main.c line 33. -/
def MASTER_MAX_RETRY : Nat := 3

/-- The CID of the echo/test characteristic, `CID_HOLD_TEST_REG` in the CID
enumeration of main.c (value 6). -/
def CID_HOLD_TEST_REG : Nat := 6

/-- The sentinel fill word 0xAAAAAAAA the echo/test path checks for and
writes back (main.c lines 203-205). -/
def ECHO_PATTERN : Int := 0xAAAAAAAA

/-- A storage location: the storage block selected by a register kind,
together with a byte index into that block.  `((void*)&block + offset - 1)`
in main.c is represented as the pair (kind, offset - 1). -/
abbrev Loc := RegKind × Nat

/-- Pointwise update of a storage map at one location. -/
def setLoc (st : Loc → Int) (l : Loc) (v : Int) : Loc → Int :=
  fun l2 => if l2 = l then v else st l2

/-- Failure class of the registry's resolve step: the descriptor's
`param_offset` is the reserved sentinel 0 ("invalid/unset"). -/
inductive ResolveError
  | invalidOffset
deriving DecidableEq, Repr

/-- Embedding of `master_get_param_data` (main.c lines 139-167): if the
descriptor's offset is nonzero, the address is `block-of-kind + offset - 1`
(all four register kinds are handled by the switch); if the offset is the
sentinel 0, the function logs an error and fails its assertion, modelled as
a `ResolveError`. -/
def master_get_param_data (d : MbParameterDescriptor) :
    Except ResolveError Loc :=
  if d.param_offset ≠ 0 then
    Except.ok (d.mb_param_type, d.param_offset - 1)
  else
    Except.error ResolveError.invalidOffset

/-- ESP error codes observable in the embedded fragment: ESP_OK,
ESP_ERR_NOT_FOUND, and transport failures (timeout or generic failure). -/
inductive EspErr
  | ok
  | notFound
  | timeout
  | fail
deriving DecidableEq, Repr

/-- Transport oracle: the outcome of the field-bus exchange that sweep
number `retry` performs for characteristic `cid`.  `readErr` is the status
returned by `mbc_master_get_parameter`, `readVal` the value delivered when
that status is OK (the decoded numeric value for analog kinds, the raw
register bits for digital kinds), and `writeErr` the status returned by
`mbc_master_set_parameter`. -/
structure Transport where
  readErr : Nat → Nat → EspErr
  readVal : Nat → Nat → Int
  writeErr : Nat → Nat → EspErr

/-- State threaded through `master_operation_func`: the storage blocks, the
device-side value of the echo/test register, the alarm flag and the cid
that tripped it, the persistent `err` variable of the C code, ghost
counters for reads/writes/sweeps, and a flag recording that a C assertion
failed (program abort). -/
structure PollState where
  storage : Loc → Int
  devEcho : Int
  alarm : Bool
  alarm_cid : Nat
  err : EspErr
  reads : Nat
  writes : Nat
  sweeps : Nat
  crashed : Bool

/-- Embedding of `mbc_master_get_cid_info`: look the cid up in the
descriptor table; ESP_ERR_NOT_FOUND past the defined characteristics. -/
def mbc_master_get_cid_info (t : List MbParameterDescriptor) (cid : Nat) :
    EspErr × Option MbParameterDescriptor :=
  match t.find? (fun d => d.cid = cid) with
  | some d => (EspErr.ok, some d)
  | none => (EspErr.notFound, none)

/-- One loop-body iteration of the inner sweep of `master_operation_func`
(main.c lines 188-269) for a characteristic whose descriptor was found.
Returns the successor state together with the break flag of the inner
`for` loop (set exactly by the two alarm `break` statements; a failed
assertion also stops the program and is modelled as a break with
`crashed := true`).

Echo/test path (lines 191-228): read into the resolved storage; on success,
if the stored word is not `ECHO_PATTERN`, fill the storage with the pattern
and write it back to the device.  General path (lines 229-267): read into
the local `value`; on success store it, then either compare against
min/max (Holding/Input) or AND the low 16 stored bits with the `opt1`
bitmask (Coil/Discrete); a violation sets the alarm and breaks.  A failed
read is only logged: state is otherwise unchanged apart from `err`. -/
def charStep (o : Transport) (retry : Nat) (d : MbParameterDescriptor)
    (s : PollState) : PollState × Bool :=
  match master_get_param_data d with
  | Except.error _ => ({ s with crashed := true }, true)
  | Except.ok loc =>
    if d.param_type = ParamType.ascii ∧ d.cid = CID_HOLD_TEST_REG then
      if o.readErr retry d.cid = EspErr.ok then
        if setLoc s.storage loc s.devEcho loc ≠ ECHO_PATTERN then
          ({ s with
              storage := setLoc (setLoc s.storage loc s.devEcho) loc
                           ECHO_PATTERN,
              err := o.writeErr retry d.cid,
              reads := s.reads + 1,
              writes := s.writes + 1,
              devEcho := if o.writeErr retry d.cid = EspErr.ok then
                           ECHO_PATTERN
                         else s.devEcho }, false)
        else
          ({ s with storage := setLoc s.storage loc s.devEcho,
                    err := o.readErr retry d.cid,
                    reads := s.reads + 1 }, false)
      else
        ({ s with err := o.readErr retry d.cid, reads := s.reads + 1 },
         false)
    else
      if o.readErr retry d.cid = EspErr.ok then
        if d.mb_param_type = RegKind.holding ∨
           d.mb_param_type = RegKind.input then
          if o.readVal retry d.cid > d.param_opts.maxv ∨
             o.readVal retry d.cid < d.param_opts.minv then
            ({ s with storage := setLoc s.storage loc (o.readVal retry d.cid),
                      err := o.readErr retry d.cid, reads := s.reads + 1,
                      alarm := true, alarm_cid := d.cid }, true)
          else
            ({ s with storage := setLoc s.storage loc (o.readVal retry d.cid),
                      err := o.readErr retry d.cid,
                      reads := s.reads + 1 }, false)
        else
          if (o.readVal retry d.cid).toNat % 65536 &&&
             d.param_opts.opt1.toNat ≠ 0 then
            ({ s with storage := setLoc s.storage loc (o.readVal retry d.cid),
                      err := o.readErr retry d.cid, reads := s.reads + 1,
                      alarm := true, alarm_cid := d.cid }, true)
          else
            ({ s with storage := setLoc s.storage loc (o.readVal retry d.cid),
                      err := o.readErr retry d.cid,
                      reads := s.reads + 1 }, false)
      else
        ({ s with err := o.readErr retry d.cid, reads := s.reads + 1 },
         false)

/-- The inner sweep loop of `master_operation_func` (main.c line 181):
`for (cid = 0; (err != ESP_ERR_NOT_FOUND) && cid < MASTER_MAX_CIDS; cid++)`.
The fuel argument starts at the table length and mirrors the loop bound:
`cid` starts at 0 and increases by 1 per iteration, so the fuel runs out
exactly when `cid < t.length` fails.  When the cid lookup fails the `err`
variable becomes ESP_ERR_NOT_FOUND, ending the loop at the next test. -/
def sweepAux (t : List MbParameterDescriptor) (o : Transport) (retry : Nat) :
    Nat → Nat → PollState → PollState
  | 0, _, s => s
  | fuel + 1, cid, s =>
    if s.err ≠ EspErr.notFound ∧ cid < t.length then
      match mbc_master_get_cid_info t cid with
      | (e, some d) =>
        let r := charStep o retry d { s with err := e }
        if r.2 then r.1 else sweepAux t o retry fuel (cid + 1) r.1
      | (e, none) => sweepAux t o retry fuel (cid + 1) { s with err := e }
    else s

/-- One full sweep, starting at cid 0 with fuel equal to the table size. -/
def sweepOnce (t : List MbParameterDescriptor) (o : Transport) (retry : Nat)
    (s : PollState) : PollState :=
  sweepAux t o retry t.length 0 s

/-- The outer retry loop of `master_operation_func` (main.c line 179):
`for (retry = 0; retry <= MASTER_MAX_RETRY && !alarm_state; retry++)`.
The fuel argument mirrors `MASTER_MAX_RETRY + 1 - retry`: it runs out
exactly when the `retry <= MASTER_MAX_RETRY` test fails.  The `sweeps`
ghost counter records how many sweeps were started. -/
def pollLoop (t : List MbParameterDescriptor) (o : Transport) :
    Nat → Nat → PollState → PollState
  | 0, _, s => s
  | fuel + 1, retry, s =>
    if retry ≤ MASTER_MAX_RETRY ∧ s.alarm = false ∧ s.crashed = false then
      let s1 := sweepOnce t o retry s
      pollLoop t o fuel (retry + 1) { s1 with sweeps := s1.sweeps + 1 }
    else s

/-- Initial state of `master_operation_func`: `err = ESP_OK`, alarm clear,
ghost counters zero; the initial storage contents and the device-side echo
register value are parameters. -/
def initState (st0 : Loc → Int) (devEcho0 : Int) : PollState :=
  { storage := st0, devEcho := devEcho0, alarm := false, alarm_cid := 0,
    err := EspErr.ok, reads := 0, writes := 0, sweeps := 0, crashed := false }

/-- Embedding of the polling cycle of `master_operation_func`
(main.c lines 170-284). -/
def master_operation_func (t : List MbParameterDescriptor) (o : Transport)
    (st0 : Loc → Int) (devEcho0 : Int) : PollState :=
  pollLoop t o (MASTER_MAX_RETRY + 1) 0 (initState st0 devEcho0)

/-- Modelled from the spec: the concrete byte offset `INPUT_OFFSET(input_data0)`
comes from `modbus_params.h`, which is not under src/.  The spec (§3) fixes
only the encoding `storage_offset = real_offset + 1` with 0 reserved as the
invalid sentinel; `input_data0` is the first field of the input block, so
its encoded offset is 1 (any nonzero value is equivalent for every claim). -/
def INPUT_OFFSET_input_data0 : Nat := 1

/-- The single row of the descriptor table of main.c (lines 131-132):
CID_INP_DATA_0, "Data_channel_0", Input kind, float, limits (-10, 10, 1). -/
def data_channel_0 : MbParameterDescriptor :=
  { cid := 0, param_key := "Data_channel_0", param_units := "Volts",
    mb_slave_addr := 1, mb_param_type := RegKind.input, mb_reg_start := 0,
    mb_size := 2, param_offset := INPUT_OFFSET_input_data0,
    param_type := ParamType.float, param_size := 4,
    param_opts := { opt1 := -10, opt2 := 10, opt3 := 1 } }

/-- The descriptor table `device_parameters` of main.c (lines 129-133): a
single Input-kind float characteristic with limits (-10, 10, 1). -/
def device_parameters : List MbParameterDescriptor :=
  [data_channel_0]

/-- `num_device_parameters` (main.c line 136), also `MASTER_MAX_CIDS`. -/
def num_device_parameters : Nat := device_parameters.length

/-- Embedding of the startup directed read in `app_main` (main.c lines
394-433): look up cid 0, resolve its storage, issue one read; on success
store the decoded value, otherwise only log.  `none` models the aborts of
the C code (a NULL descriptor or a failed storage assertion). -/
def app_main_read (t : List MbParameterDescriptor) (e : EspErr) (v : Int)
    (st : Loc → Int) : Option (Loc → Int) :=
  match mbc_master_get_cid_info t 0 with
  | (_, some d) =>
    match master_get_param_data d with
    | Except.ok loc => some (if e = EspErr.ok then setLoc st loc v else st)
    | Except.error _ => none
  | (_, none) => none

/-- SCRATCH_BUFSIZE, rest_server.c line 33: capacity of the per-connection
scratch buffer that receives a request body. -/
def SCRATCH_BUFSIZE : Nat := 10240

/-- The decoded JSON request body: each field is present (`some`) or absent
(`none`).  `cJSON_GetObjectItem` returns NULL for an absent field. -/
structure JsonBody where
  slaveId : Option Int
  registerId : Option Int
  funcId : Option Int
  value : Option Int
deriving DecidableEq, Repr

/-- A registry/transport operation issued by the protocol bridge. -/
inductive MbCall
  | readC (kind : RegKind) (slaveId registerId : Int)
  | writeC (kind : RegKind) (slaveId registerId value : Int)
deriving DecidableEq, Repr

/-- Observable outcome of one HTTP handler invocation.  `crash` models the
undefined behaviour of dereferencing the NULL pointer that
`cJSON_GetObjectItem` returns for a missing field (or that `cJSON_Parse`
returns for a malformed body). -/
inductive HttpOutcome
  | err500 (msg : String)
  | crash
  | invalidArg
  | okJson (echo : JsonBody) (value : Option Int)
deriving DecidableEq, Repr

/-- Modelled from the spec: the definition of `set_mb` is not under src/
(rest_server.c line 19 only declares it).  Per spec §4.3, a Set command
invokes `write_characteristic` on the write target the handler designates:
the handler passes target 3 in its Holding cases (function codes 16 and 10)
and target 4 in its Coil case (function code 15). -/
def set_mb (target : Int) (slaveId registerId value : Int) : MbCall :=
  if target = 4 then MbCall.writeC RegKind.coil slaveId registerId value
  else MbCall.writeC RegKind.holding slaveId registerId value

/-- Modelled from the spec: the definition of `read_mb` is not under src/
(rest_server.c line 18 only declares it).  Per spec §4.3, a Get command
derives a kind-indexed characteristic and invokes `read_characteristic`:
the handler passes target 0 for Holding, 1 for Input and 2 for Coil (the
comments at rest_server.c lines 146/150/154).  `env` gives the value the
read decodes for a given kind, slave id and register id. -/
def read_mb (env : RegKind → Int → Int → Int) (target : Int)
    (slaveId registerId : Int) : MbCall × Int :=
  let k := if target = 0 then RegKind.holding
           else if target = 1 then RegKind.input
           else RegKind.coil
  (MbCall.readC k slaveId registerId, env k slaveId registerId)

/-- Embedding of `set_mb_handler` (rest_server.c lines 62-113).  Inputs: the
request body length, whether `httpd_req_recv` succeeds, and the parsed body
(`none` when the body is not valid JSON).  Output: the observable outcome
paired with the list of registry/transport operations issued.

The handler first rejects bodies of length ≥ SCRATCH_BUFSIZE with a 500
(before any receive or parse), then receives (500 on failure), then reads
the four fields `slaveId`, `registerId`, `funcId`, `value` with no NULL
check — a missing field is a crash — then switches on `funcId`:
16 → `set_mb(3,...)`, 15 → `set_mb(4,...)`, 10 → `set_mb(3,...)`, any
other code returns ESP_ERR_INVALID_ARG with no call issued; on success the
parsed body is echoed back as the response. -/
def set_mb_handler (content_len : Nat) (recv_ok : Bool)
    (root : Option JsonBody) : HttpOutcome × List MbCall :=
  if SCRATCH_BUFSIZE ≤ content_len then
    (HttpOutcome.err500 "content too long", [])
  else if 0 < content_len ∧ recv_ok = false then
    (HttpOutcome.err500 "Failed to post control value", [])
  else
    match root with
    | none => (HttpOutcome.crash, [])
    | some b =>
      match b.slaveId, b.registerId, b.funcId, b.value with
      | some slaveId, some registerId, some funcId, some v =>
        if funcId = 16 then
          (HttpOutcome.okJson b none, [set_mb 3 slaveId registerId v])
        else if funcId = 15 then
          (HttpOutcome.okJson b none, [set_mb 4 slaveId registerId v])
        else if funcId = 10 then
          (HttpOutcome.okJson b none, [set_mb 3 slaveId registerId v])
        else
          (HttpOutcome.invalidArg, [])
      | _, _, _, _ => (HttpOutcome.crash, [])

/-- Embedding of `get_mb_handler` (rest_server.c lines 115-167).  Same
buffer/receive/parse prelude as `set_mb_handler`, reading the three fields
`slaveId`, `registerId`, `funcId` (again with no NULL check); then switches
on `funcId`: 3 → `read_mb(0,...)`, 4 → `read_mb(1,...)`, 1 → `read_mb(2,...)`,
any other code returns ESP_ERR_INVALID_ARG with no call issued; on success
the decoded value is added to the echoed body as field `value`. -/
def get_mb_handler (env : RegKind → Int → Int → Int) (content_len : Nat)
    (recv_ok : Bool) (root : Option JsonBody) : HttpOutcome × List MbCall :=
  if SCRATCH_BUFSIZE ≤ content_len then
    (HttpOutcome.err500 "content too long", [])
  else if 0 < content_len ∧ recv_ok = false then
    (HttpOutcome.err500 "Failed to post control value", [])
  else
    match root with
    | none => (HttpOutcome.crash, [])
    | some b =>
      match b.slaveId, b.registerId, b.funcId with
      | some slaveId, some registerId, some funcId =>
        if funcId = 3 then
          let r := read_mb env 0 slaveId registerId
          (HttpOutcome.okJson b (some r.2), [r.1])
        else if funcId = 4 then
          let r := read_mb env 1 slaveId registerId
          (HttpOutcome.okJson b (some r.2), [r.1])
        else if funcId = 1 then
          let r := read_mb env 2 slaveId registerId
          (HttpOutcome.okJson b (some r.2), [r.1])
        else
          (HttpOutcome.invalidArg, [])
      | _, _, _ => (HttpOutcome.crash, [])

/-- All-zero initial storage, a convenient concrete storage map. -/
def zeroStorage : Loc → Int := fun _ => 0

/-- A transport on which every exchange succeeds and every read yields 0. -/
def orcQuiet : Transport :=
  { readErr := fun _ _ => EspErr.ok, readVal := fun _ _ => 0,
    writeErr := fun _ _ => EspErr.ok }

/-- A transport on which every exchange succeeds and every read yields 11
(outside the (-10, 10) limits of the table's analog characteristic). -/
def orcVal11 : Transport :=
  { readErr := fun _ _ => EspErr.ok, readVal := fun _ _ => 11,
    writeErr := fun _ _ => EspErr.ok }

/-- A transport on which every exchange times out. -/
def orcTimeout : Transport :=
  { readErr := fun _ _ => EspErr.timeout, readVal := fun _ _ => 0,
    writeErr := fun _ _ => EspErr.timeout }

/-- A hypothetical echo/test characteristic (CID_HOLD_TEST_REG with the
ASCII value type), used to instantiate the echo-path theorems; its shape
follows the data model of §3 of the spec (the repository's own table does
not define cid 6). -/
def hold_test_desc : MbParameterDescriptor :=
  { cid := CID_HOLD_TEST_REG, param_key := "Test_regs", param_units := "__",
    mb_slave_addr := 1, mb_param_type := RegKind.holding, mb_reg_start := 0,
    mb_size := 29, param_offset := 1, param_type := ParamType.ascii,
    param_size := 58, param_opts := { opt1 := 0, opt2 := 0, opt3 := 0 } }

/-- A hypothetical Coil-kind characteristic with bitmask 0x01, used to
instantiate the digital alarm rule. -/
def relay_p1_desc : MbParameterDescriptor :=
  { cid := 7, param_key := "RelayP1", param_units := "on/off",
    mb_slave_addr := 1, mb_param_type := RegKind.coil, mb_reg_start := 0,
    mb_size := 1, param_offset := 1, param_type := ParamType.u16,
    param_size := 2, param_opts := { opt1 := 1, opt2 := 0, opt3 := 0 } }

/-- A read environment for the protocol bridge that returns 0 everywhere. -/
def envZero : RegKind → Int → Int → Int := fun _ _ _ => 0

/-- C5: `resolve` (`master_get_param_data`) on a descriptor whose
`storage_offset` is the sentinel 0 always fails with the configuration
error `InvalidOffset` and never returns a usable address; on a nonzero
offset with a known register kind it returns the address at
(block base + offset - 1) inside the block selected by `register_kind`. -/
theorem C5_resolve (d : MbParameterDescriptor) :
    (d.param_offset = 0 →
      master_get_param_data d = Except.error ResolveError.invalidOffset) ∧
    (d.param_offset ≠ 0 →
      master_get_param_data d =
        Except.ok (d.mb_param_type, d.param_offset - 1)) := by
  refine ⟨fun h => ?_, fun h => ?_⟩ <;> simp [master_get_param_data, h]

/-- Witness for C5: a sentinel-offset descriptor fails, and the table's own
descriptor resolves to index 0 of the Input block. -/
theorem C5_resolve_witness :
    master_get_param_data { data_channel_0 with param_offset := 0 }
      = Except.error ResolveError.invalidOffset ∧
    master_get_param_data data_channel_0
      = Except.ok (RegKind.input, 0) :=
  ⟨(C5_resolve { data_channel_0 with param_offset := 0 }).1 rfl,
   (C5_resolve data_channel_0).2 (by decide)⟩

/-- C8: a request to /set-modbus or /read-modbus whose body length exceeds
the scratch-buffer capacity is rejected with a 500 server error before any
parsing (the outcome does not depend on the body or receive results), and
no registry or transport operation is issued. -/
theorem C8_oversized_body_rejected (content_len : Nat) (recv_ok : Bool)
    (root : Option JsonBody) (env : RegKind → Int → Int → Int)
    (hlen : SCRATCH_BUFSIZE < content_len) :
    set_mb_handler content_len recv_ok root
      = (HttpOutcome.err500 "content too long", []) ∧
    get_mb_handler env content_len recv_ok root
      = (HttpOutcome.err500 "content too long", []) := by
  have h : SCRATCH_BUFSIZE ≤ content_len := Nat.le_of_lt hlen
  exact ⟨by simp [set_mb_handler, h], by simp [get_mb_handler, h]⟩

/-- Witness for C8: a 20000-byte body is rejected by both handlers. -/
theorem C8_oversized_body_rejected_witness :
    set_mb_handler 20000 true
        (some { slaveId := some 1, registerId := some 2, funcId := some 16,
                value := some 3 })
      = (HttpOutcome.err500 "content too long", []) ∧
    get_mb_handler envZero 20000 true
        (some { slaveId := some 1, registerId := some 2, funcId := some 3,
                value := none })
      = (HttpOutcome.err500 "content too long", []) :=
  ⟨(C8_oversized_body_rejected 20000 true
      (some { slaveId := some 1, registerId := some 2, funcId := some 16,
              value := some 3 }) envZero (by decide)).1,
   (C8_oversized_body_rejected 20000 true
      (some { slaveId := some 1, registerId := some 2, funcId := some 3,
              value := none }) envZero (by decide)).2⟩

/-- C7: on a body that parses as JSON but is missing required fields, both
handlers dereference the NULL pointer returned by `cJSON_GetObjectItem`
(modelled as the `crash` outcome) instead of reporting a parse-failure
error class; no function-code mapping step is reached and no call is
issued.  This evaluates the code at the failing input
`{"slaveId": 1}` (13 bytes). -/
theorem C7_missing_field_crashes :
    set_mb_handler 13 true
        (some { slaveId := some 1, registerId := none, funcId := none,
                value := none })
      = (HttpOutcome.crash, []) ∧
    get_mb_handler envZero 13 true
        (some { slaveId := some 1, registerId := none, funcId := none,
                value := none })
      = (HttpOutcome.crash, []) ∧
    set_mb_handler 2 true none = (HttpOutcome.crash, []) ∧
    get_mb_handler envZero 2 true none = (HttpOutcome.crash, []) := by
  refine ⟨rfl, rfl, rfl, rfl⟩

/-- C2: the Set path of the protocol bridge.  Function codes 16 and 10 are
mapped to a write of a Holding-kind characteristic and function code 15 to
a write of a Coil-kind characteristic (via the spec-modelled `set_mb`),
`write_characteristic` is invoked with the supplied value, the parsed
command record is echoed back; every other function code is rejected with
InvalidArgument and no call is issued. -/
theorem C2_set_bridge (content_len : Nat) (b : JsonBody)
    (slaveId registerId funcId v : Int)
    (hlen : content_len < SCRATCH_BUFSIZE)
    (hs : b.slaveId = some slaveId) (hr : b.registerId = some registerId)
    (hf : b.funcId = some funcId) (hv : b.value = some v) :
    ((funcId = 16 ∨ funcId = 10) →
      set_mb_handler content_len true (some b)
        = (HttpOutcome.okJson b none,
           [MbCall.writeC RegKind.holding slaveId registerId v])) ∧
    (funcId = 15 →
      set_mb_handler content_len true (some b)
        = (HttpOutcome.okJson b none,
           [MbCall.writeC RegKind.coil slaveId registerId v])) ∧
    (funcId ≠ 16 → funcId ≠ 10 → funcId ≠ 15 →
      set_mb_handler content_len true (some b)
        = (HttpOutcome.invalidArg, [])) := by
  have hnot : ¬ SCRATCH_BUFSIZE ≤ content_len := Nat.not_le.mpr hlen
  refine ⟨fun hcode => ?_, fun hcode => ?_, fun h16 h10 h15 => ?_⟩
  · rcases hcode with h | h <;>
      simp [set_mb_handler, set_mb, hnot, hs, hr, hf, hv, h]
  · simp [set_mb_handler, set_mb, hnot, hs, hr, hf, hv, hcode]
  · simp [set_mb_handler, set_mb, hnot, hs, hr, hf, hv, h16, h10, h15]

/-- Witness for C2: concrete Set commands with function codes 16, 10, 15
and the rejected 99. -/
theorem C2_set_bridge_witness :
    set_mb_handler 50 true
        (some { slaveId := some 1, registerId := some 5, funcId := some 16,
                value := some 7 })
      = (HttpOutcome.okJson
           { slaveId := some 1, registerId := some 5, funcId := some 16,
             value := some 7 } none,
         [MbCall.writeC RegKind.holding 1 5 7]) ∧
    set_mb_handler 50 true
        (some { slaveId := some 1, registerId := some 5, funcId := some 15,
                value := some 7 })
      = (HttpOutcome.okJson
           { slaveId := some 1, registerId := some 5, funcId := some 15,
             value := some 7 } none,
         [MbCall.writeC RegKind.coil 1 5 7]) ∧
    set_mb_handler 50 true
        (some { slaveId := some 1, registerId := some 5, funcId := some 99,
                value := some 7 })
      = (HttpOutcome.invalidArg, []) :=
  ⟨(C2_set_bridge 50
      { slaveId := some 1, registerId := some 5, funcId := some 16,
        value := some 7 } 1 5 16 7 (by decide) rfl rfl rfl rfl).1
      (Or.inl rfl),
   (C2_set_bridge 50
      { slaveId := some 1, registerId := some 5, funcId := some 15,
        value := some 7 } 1 5 15 7 (by decide) rfl rfl rfl rfl).2.1 rfl,
   (C2_set_bridge 50
      { slaveId := some 1, registerId := some 5, funcId := some 99,
        value := some 7 } 1 5 99 7 (by decide) rfl rfl rfl rfl).2.2
      (by decide) (by decide) (by decide)⟩

/-- C4: the Get path of the protocol bridge.  Function code 3 is mapped to
a Holding-kind read, 4 to an Input-kind read and 1 to a Coil-kind read (via
the spec-modelled kind-indexed `read_mb`), `read_characteristic` is invoked
and the decoded value is embedded in the echoed command record; every other
function code is rejected with InvalidArgument and no transport access is
issued. -/
theorem C4_get_bridge (env : RegKind → Int → Int → Int) (content_len : Nat)
    (b : JsonBody) (slaveId registerId funcId : Int)
    (hlen : content_len < SCRATCH_BUFSIZE)
    (hs : b.slaveId = some slaveId) (hr : b.registerId = some registerId)
    (hf : b.funcId = some funcId) :
    (funcId = 3 →
      get_mb_handler env content_len true (some b)
        = (HttpOutcome.okJson b (some (env RegKind.holding slaveId registerId)),
           [MbCall.readC RegKind.holding slaveId registerId])) ∧
    (funcId = 4 →
      get_mb_handler env content_len true (some b)
        = (HttpOutcome.okJson b (some (env RegKind.input slaveId registerId)),
           [MbCall.readC RegKind.input slaveId registerId])) ∧
    (funcId = 1 →
      get_mb_handler env content_len true (some b)
        = (HttpOutcome.okJson b (some (env RegKind.coil slaveId registerId)),
           [MbCall.readC RegKind.coil slaveId registerId])) ∧
    (funcId ≠ 3 → funcId ≠ 4 → funcId ≠ 1 →
      get_mb_handler env content_len true (some b)
        = (HttpOutcome.invalidArg, [])) := by
  have hnot : ¬ SCRATCH_BUFSIZE ≤ content_len := Nat.not_le.mpr hlen
  refine ⟨fun hc => ?_, fun hc => ?_, fun hc => ?_, fun h3 h4 h1 => ?_⟩ <;>
    simp [get_mb_handler, read_mb, hnot, hs, hr, hf, *]

/-- Witness for C4: concrete Get commands with function codes 3, 4, 1 and
the rejected 99. -/
theorem C4_get_bridge_witness :
    get_mb_handler envZero 40 true
        (some { slaveId := some 1, registerId := some 5, funcId := some 3,
                value := none })
      = (HttpOutcome.okJson
           { slaveId := some 1, registerId := some 5, funcId := some 3,
             value := none } (some 0),
         [MbCall.readC RegKind.holding 1 5]) ∧
    get_mb_handler envZero 40 true
        (some { slaveId := some 1, registerId := some 5, funcId := some 4,
                value := none })
      = (HttpOutcome.okJson
           { slaveId := some 1, registerId := some 5, funcId := some 4,
             value := none } (some 0),
         [MbCall.readC RegKind.input 1 5]) ∧
    get_mb_handler envZero 40 true
        (some { slaveId := some 1, registerId := some 5, funcId := some 1,
                value := none })
      = (HttpOutcome.okJson
           { slaveId := some 1, registerId := some 5, funcId := some 1,
             value := none } (some 0),
         [MbCall.readC RegKind.coil 1 5]) ∧
    get_mb_handler envZero 40 true
        (some { slaveId := some 1, registerId := some 5, funcId := some 99,
                value := none })
      = (HttpOutcome.invalidArg, []) :=
  ⟨(C4_get_bridge envZero 40
      { slaveId := some 1, registerId := some 5, funcId := some 3,
        value := none } 1 5 3 (by decide) rfl rfl rfl).1 rfl,
   (C4_get_bridge envZero 40
      { slaveId := some 1, registerId := some 5, funcId := some 4,
        value := none } 1 5 4 (by decide) rfl rfl rfl).2.1 rfl,
   (C4_get_bridge envZero 40
      { slaveId := some 1, registerId := some 5, funcId := some 1,
        value := none } 1 5 1 (by decide) rfl rfl rfl).2.2.1 rfl,
   (C4_get_bridge envZero 40
      { slaveId := some 1, registerId := some 5, funcId := some 99,
        value := none } 1 5 99 (by decide) rfl rfl rfl).2.2.2
      (by decide) (by decide) (by decide)⟩

/-- Evaluating a pointwise storage update at the written location returns
the written value. -/
theorem setLoc_self (st : Loc → Int) (l : Loc) (v : Int) :
    setLoc st l v l = v := by
  simp [setLoc]

/-- A resolve failure happens exactly on the sentinel offset 0. -/
theorem master_get_param_data_eq_error (d : MbParameterDescriptor)
    (e : ResolveError) (h : master_get_param_data d = Except.error e) :
    d.param_offset = 0 := by
  by_contra hoff
  simp [master_get_param_data, hoff] at h

/-- C3: the kind-dependent alarm rule of the polling sweep.  With a
successful read on the general (non-echo) path: for analog kinds
(Holding/Input) the alarm is set exactly when the value exceeds the
configured max or undercuts the configured min; for digital kinds
(Coil/Discrete) exactly when the stored 16 low bits ANDed with the
configured `opt1` bitmask are nonzero. -/
theorem C3_alarm_rule (o : Transport) (retry : Nat)
    (d : MbParameterDescriptor) (s : PollState)
    (hoff : d.param_offset ≠ 0)
    (hgen : ¬(d.param_type = ParamType.ascii ∧ d.cid = CID_HOLD_TEST_REG))
    (hok : o.readErr retry d.cid = EspErr.ok)
    (halarm : s.alarm = false) :
    ((d.mb_param_type = RegKind.holding ∨ d.mb_param_type = RegKind.input) →
      ((charStep o retry d s).1.alarm = true ↔
        (o.readVal retry d.cid > d.param_opts.maxv ∨
         o.readVal retry d.cid < d.param_opts.minv))) ∧
    ((d.mb_param_type = RegKind.coil ∨ d.mb_param_type = RegKind.discrete) →
      ((charStep o retry d s).1.alarm = true ↔
        ((o.readVal retry d.cid).toNat % 65536) &&&
          d.param_opts.opt1.toNat ≠ 0)) := by
  have hres : master_get_param_data d =
      Except.ok (d.mb_param_type, d.param_offset - 1) := by
    simp [master_get_param_data, hoff]
  constructor
  · intro hkind
    by_cases hlim : o.readVal retry d.cid > d.param_opts.maxv ∨
        o.readVal retry d.cid < d.param_opts.minv <;>
      simp [charStep, hres, hgen, hok, hkind, hlim, halarm]
  · intro hkind
    have hnotanalog : ¬ (d.mb_param_type = RegKind.holding ∨
        d.mb_param_type = RegKind.input) := by
      rcases hkind with h | h <;> rw [h] <;> decide
    by_cases hmask : ((o.readVal retry d.cid).toNat % 65536) &&&
        d.param_opts.opt1.toNat ≠ 0 <;>
      simp [charStep, hres, hgen, hok, hnotanalog, hmask, halarm]

/-- Witness for C3: on the table's analog characteristic (limits -10..10) a
read of 11 sets the alarm and a read of 5 does not; on a Coil
characteristic with bitmask 0x01 stored bits 0x01 set the alarm and 0x00
does not. -/
theorem C3_alarm_rule_witness :
    (charStep orcVal11 0 data_channel_0 (initState zeroStorage 0)).1.alarm
      = true ∧
    (charStep { orcVal11 with readVal := fun _ _ => 5 } 0 data_channel_0
        (initState zeroStorage 0)).1.alarm = false ∧
    (charStep { orcVal11 with readVal := fun _ _ => 1 } 0 relay_p1_desc
        (initState zeroStorage 0)).1.alarm = true ∧
    (charStep { orcVal11 with readVal := fun _ _ => 0 } 0 relay_p1_desc
        (initState zeroStorage 0)).1.alarm = false := by
  refine ⟨?_, ?_, ?_, ?_⟩
  · exact ((C3_alarm_rule orcVal11 0 data_channel_0 (initState zeroStorage 0)
      (by decide) (by decide) rfl rfl).1 (Or.inr rfl)).mpr (by decide)
  · have h := ((C3_alarm_rule { orcVal11 with readVal := fun _ _ => 5 } 0
      data_channel_0 (initState zeroStorage 0)
      (by decide) (by decide) rfl rfl).1 (Or.inr rfl))
    cases hb : (charStep { orcVal11 with readVal := fun _ _ => 5 } 0
        data_channel_0 (initState zeroStorage 0)).1.alarm
    · rfl
    · exact absurd (h.mp hb) (by decide)
  · exact ((C3_alarm_rule { orcVal11 with readVal := fun _ _ => 1 } 0
      relay_p1_desc (initState zeroStorage 0)
      (by decide) (by decide) rfl rfl).2 (Or.inl rfl)).mpr (by decide)
  · have h := ((C3_alarm_rule { orcVal11 with readVal := fun _ _ => 0 } 0
      relay_p1_desc (initState zeroStorage 0)
      (by decide) (by decide) rfl rfl).2 (Or.inl rfl))
    cases hb : (charStep { orcVal11 with readVal := fun _ _ => 0 } 0
        relay_p1_desc (initState zeroStorage 0)).1.alarm
    · rfl
    · exact absurd (h.mp hb) (by decide)

/-- C10: state is unchanged on transport error.  On the sweep's general
(non-echo) path the decoded value is written to the resolved storage
location exactly when the exchange succeeds, and on failure the storage map
is unchanged; the startup directed read of `app_main` behaves the same
way. -/
theorem C10_storage_unchanged_on_error (o : Transport) (retry : Nat)
    (d : MbParameterDescriptor) (s : PollState) (loc : Loc)
    (hres : master_get_param_data d = Except.ok loc)
    (hgen : ¬(d.param_type = ParamType.ascii ∧ d.cid = CID_HOLD_TEST_REG)) :
    (o.readErr retry d.cid = EspErr.ok →
      (charStep o retry d s).1.storage
        = setLoc s.storage loc (o.readVal retry d.cid)) ∧
    (o.readErr retry d.cid ≠ EspErr.ok →
      (charStep o retry d s).1.storage = s.storage) ∧
    (∀ (t : List MbParameterDescriptor) (e : EspErr) (v : Int)
       (st : Loc → Int) (d0 : MbParameterDescriptor) (loc0 : Loc),
       mbc_master_get_cid_info t 0 = (EspErr.ok, some d0) →
       master_get_param_data d0 = Except.ok loc0 →
       (e = EspErr.ok → app_main_read t e v st = some (setLoc st loc0 v)) ∧
       (e ≠ EspErr.ok → app_main_read t e v st = some st)) := by
  refine ⟨fun hok => ?_, fun hfail => ?_, ?_⟩
  · by_cases hkind : d.mb_param_type = RegKind.holding ∨
        d.mb_param_type = RegKind.input
    · by_cases hlim : o.readVal retry d.cid > d.param_opts.maxv ∨
          o.readVal retry d.cid < d.param_opts.minv <;>
        simp [charStep, hres, hgen, hok, hkind, hlim]
    · by_cases hmask : ((o.readVal retry d.cid).toNat % 65536) &&&
          d.param_opts.opt1.toNat ≠ 0 <;>
        simp [charStep, hres, hgen, hok, hkind, hmask]
  · simp [charStep, hres, hgen, hfail]
  · intro t e v st d0 loc0 hinfo hres0
    have hfind : t.find? (fun d2 => d2.cid = 0) = some d0 := by
      by_cases hcase : (t.find? (fun d2 => d2.cid = 0)).isSome
      · rcases Option.isSome_iff_exists.mp hcase with ⟨d1, hd1⟩
        simp [mbc_master_get_cid_info, hd1] at hinfo
        rw [hd1, hinfo]
      · rw [Option.not_isSome_iff_eq_none] at hcase
        simp [mbc_master_get_cid_info, hcase] at hinfo
    refine ⟨fun hok => ?_, fun hfail => ?_⟩
    · simp [app_main_read, mbc_master_get_cid_info, hfind, hres0, hok]
    · simp [app_main_read, mbc_master_get_cid_info, hfind, hres0, hfail]

/-- Witness for C10: with the repository's table, a successful read of 11
stores 11 at the Input-block location and a timed-out read leaves the
all-zero storage unchanged, for both the sweep path and the startup read. -/
theorem C10_storage_unchanged_on_error_witness :
    (charStep orcVal11 0 data_channel_0 (initState zeroStorage 0)).1.storage
      = setLoc zeroStorage (RegKind.input, 0) 11 ∧
    (charStep orcTimeout 0 data_channel_0 (initState zeroStorage 0)).1.storage
      = zeroStorage ∧
    app_main_read device_parameters EspErr.ok 11 zeroStorage
      = some (setLoc zeroStorage (RegKind.input, 0) 11) ∧
    app_main_read device_parameters EspErr.timeout 11 zeroStorage
      = some zeroStorage :=
  ⟨(C10_storage_unchanged_on_error orcVal11 0 data_channel_0
      (initState zeroStorage 0) (RegKind.input, 0) rfl
      (by decide)).1 rfl,
   (C10_storage_unchanged_on_error orcTimeout 0 data_channel_0
      (initState zeroStorage 0) (RegKind.input, 0) rfl
      (by decide)).2.1 (by decide),
   ((C10_storage_unchanged_on_error orcVal11 0 data_channel_0
      (initState zeroStorage 0) (RegKind.input, 0) rfl
      (by decide)).2.2 device_parameters EspErr.ok 11 zeroStorage
      data_channel_0 (RegKind.input, 0) (by decide) rfl).1 rfl,
   ((C10_storage_unchanged_on_error orcVal11 0 data_channel_0
      (initState zeroStorage 0) (RegKind.input, 0) rfl
      (by decide)).2.2 device_parameters EspErr.timeout 11 zeroStorage
      data_channel_0 (RegKind.input, 0) (by decide) rfl).2
      (by decide)⟩

/-- One characteristic step never touches the sweep counter. -/
theorem charStep_sweeps (o : Transport) (retry : Nat)
    (d : MbParameterDescriptor) (s : PollState) :
    (charStep o retry d s).1.sweeps = s.sweeps := by
  unfold charStep
  repeat' split
  all_goals rfl

/-- One characteristic step performs at most one transport read. -/
theorem charStep_reads_le (o : Transport) (retry : Nat)
    (d : MbParameterDescriptor) (s : PollState) :
    (charStep o retry d s).1.reads ≤ s.reads + 1 := by
  unfold charStep
  repeat' split
  all_goals simp

/-- With a nonzero storage offset, one characteristic step never trips the
abort flag. -/
theorem charStep_crashed (o : Transport) (retry : Nat)
    (d : MbParameterDescriptor) (s : PollState)
    (hoff : d.param_offset ≠ 0) :
    (charStep o retry d s).1.crashed = s.crashed := by
  unfold charStep
  repeat' split
  all_goals simp_all [master_get_param_data]

/-- Once the device-side echo register holds the sentinel pattern, one
characteristic step performs no write and preserves the pattern. -/
theorem charStep_echo_inv (o : Transport) (retry : Nat)
    (d : MbParameterDescriptor) (s : PollState)
    (hEcho : s.devEcho = ECHO_PATTERN) :
    (charStep o retry d s).1.devEcho = ECHO_PATTERN ∧
    (charStep o retry d s).1.writes = s.writes := by
  unfold charStep
  repeat' split
  all_goals simp_all [setLoc_self]

/-- Unfolding: an inner-loop iteration whose cid lookup finds a descriptor
processes it and, unless the step breaks, continues with the next cid. -/
theorem sweepAux_succ_found (t : List MbParameterDescriptor) (o : Transport)
    (retry fuel cid : Nat) (s : PollState) (d : MbParameterDescriptor)
    (hcond : s.err ≠ EspErr.notFound ∧ cid < t.length)
    (hfind : t.find? (fun d2 => d2.cid = cid) = some d) :
    sweepAux t o retry (fuel + 1) cid s =
      (if (charStep o retry d { s with err := EspErr.ok }).2 then
        (charStep o retry d { s with err := EspErr.ok }).1
      else
        sweepAux t o retry fuel (cid + 1)
          (charStep o retry d { s with err := EspErr.ok }).1) := by
  conv_lhs => rw [sweepAux]
  rw [if_pos hcond]
  simp [mbc_master_get_cid_info, hfind]

/-- Unfolding: an inner-loop iteration whose cid lookup fails records
ESP_ERR_NOT_FOUND in `err` (ending the loop at its next test). -/
theorem sweepAux_succ_notfound (t : List MbParameterDescriptor)
    (o : Transport) (retry fuel cid : Nat) (s : PollState)
    (hcond : s.err ≠ EspErr.notFound ∧ cid < t.length)
    (hfind : t.find? (fun d2 => d2.cid = cid) = none) :
    sweepAux t o retry (fuel + 1) cid s =
      sweepAux t o retry fuel (cid + 1) { s with err := EspErr.notFound } := by
  conv_lhs => rw [sweepAux]
  rw [if_pos hcond]
  simp [mbc_master_get_cid_info, hfind]

/-- Unfolding: the inner loop stops when `err` is ESP_ERR_NOT_FOUND or the
cid has reached the table size. -/
theorem sweepAux_succ_stop (t : List MbParameterDescriptor) (o : Transport)
    (retry fuel cid : Nat) (s : PollState)
    (hcond : ¬(s.err ≠ EspErr.notFound ∧ cid < t.length)) :
    sweepAux t o retry (fuel + 1) cid s = s := by
  conv_lhs => rw [sweepAux]
  rw [if_neg hcond]

/-- The inner sweep loop never touches the sweep counter. -/
theorem sweepAux_sweeps (t : List MbParameterDescriptor) (o : Transport)
    (retry : Nat) : ∀ (fuel cid : Nat) (s : PollState),
    (sweepAux t o retry fuel cid s).sweeps = s.sweeps := by
  intro fuel
  induction fuel with
  | zero => intro cid s; rfl
  | succ f ih =>
    intro cid s
    by_cases hcond : s.err ≠ EspErr.notFound ∧ cid < t.length
    · cases hfind : t.find? (fun d2 => d2.cid = cid) with
      | some d =>
        rw [sweepAux_succ_found t o retry f cid s d hcond hfind]
        split
        · exact charStep_sweeps o retry d _
        · rw [ih]; exact charStep_sweeps o retry d _
      | none =>
        rw [sweepAux_succ_notfound t o retry f cid s hcond hfind, ih]
    · rw [sweepAux_succ_stop t o retry f cid s hcond]

/-- One fueled run of the inner loop performs at most `fuel` reads. -/
theorem sweepAux_reads_le (t : List MbParameterDescriptor) (o : Transport)
    (retry : Nat) : ∀ (fuel cid : Nat) (s : PollState),
    (sweepAux t o retry fuel cid s).reads ≤ s.reads + fuel := by
  intro fuel
  induction fuel with
  | zero => intro cid s; simp [sweepAux]
  | succ f ih =>
    intro cid s
    by_cases hcond : s.err ≠ EspErr.notFound ∧ cid < t.length
    · cases hfind : t.find? (fun d2 => d2.cid = cid) with
      | some d =>
        rw [sweepAux_succ_found t o retry f cid s d hcond hfind]
        have h1 := charStep_reads_le o retry d { s with err := EspErr.ok }
        have h0 : ({ s with err := EspErr.ok } : PollState).reads
            = s.reads := rfl
        split
        · omega
        · have h2 := ih (cid + 1)
            (charStep o retry d { s with err := EspErr.ok }).1
          omega
      | none =>
        rw [sweepAux_succ_notfound t o retry f cid s hcond hfind]
        have h2 := ih (cid + 1) { s with err := EspErr.notFound }
        have h0 : ({ s with err := EspErr.notFound } : PollState).reads
            = s.reads := rfl
        omega
    · rw [sweepAux_succ_stop t o retry f cid s hcond]
      omega

/-- On a table whose descriptors all have nonzero offsets, the inner loop
never trips the abort flag. -/
theorem sweepAux_crashed (t : List MbParameterDescriptor) (o : Transport)
    (retry : Nat) (hvalid : ∀ d ∈ t, d.param_offset ≠ 0) :
    ∀ (fuel cid : Nat) (s : PollState),
    (sweepAux t o retry fuel cid s).crashed = s.crashed := by
  intro fuel
  induction fuel with
  | zero => intro cid s; rfl
  | succ f ih =>
    intro cid s
    by_cases hcond : s.err ≠ EspErr.notFound ∧ cid < t.length
    · cases hfind : t.find? (fun d2 => d2.cid = cid) with
      | some d =>
        have hmem : d ∈ t := List.mem_of_find?_eq_some hfind
        have hoff := hvalid d hmem
        rw [sweepAux_succ_found t o retry f cid s d hcond hfind]
        split
        · exact charStep_crashed o retry d _ hoff
        · rw [ih]; exact charStep_crashed o retry d _ hoff
      | none =>
        rw [sweepAux_succ_notfound t o retry f cid s hcond hfind, ih]
    · rw [sweepAux_succ_stop t o retry f cid s hcond]

/-- Once the device-side echo register holds the sentinel pattern, the
inner loop performs no write and preserves the pattern. -/
theorem sweepAux_echo_inv (t : List MbParameterDescriptor) (o : Transport)
    (retry : Nat) : ∀ (fuel cid : Nat) (s : PollState),
    s.devEcho = ECHO_PATTERN →
    (sweepAux t o retry fuel cid s).devEcho = ECHO_PATTERN ∧
    (sweepAux t o retry fuel cid s).writes = s.writes := by
  intro fuel
  induction fuel with
  | zero => intro cid s hEcho; exact ⟨hEcho, rfl⟩
  | succ f ih =>
    intro cid s hEcho
    by_cases hcond : s.err ≠ EspErr.notFound ∧ cid < t.length
    · cases hfind : t.find? (fun d2 => d2.cid = cid) with
      | some d =>
        have hstep := charStep_echo_inv o retry d { s with err := EspErr.ok }
          hEcho
        rw [sweepAux_succ_found t o retry f cid s d hcond hfind]
        split
        · exact hstep
        · have h2 := ih (cid + 1)
            (charStep o retry d { s with err := EspErr.ok }).1 hstep.1
          exact ⟨h2.1, h2.2.trans hstep.2⟩
      | none =>
        rw [sweepAux_succ_notfound t o retry f cid s hcond hfind]
        exact ih (cid + 1) { s with err := EspErr.notFound } hEcho
    · rw [sweepAux_succ_stop t o retry f cid s hcond]
      exact ⟨hEcho, rfl⟩

/-- Unfolding: an outer-loop iteration whose guard holds runs one sweep and
continues with the next retry count. -/
theorem pollLoop_succ_go (t : List MbParameterDescriptor) (o : Transport)
    (fuel retry : Nat) (s : PollState)
    (h : retry ≤ MASTER_MAX_RETRY ∧ s.alarm = false ∧ s.crashed = false) :
    pollLoop t o (fuel + 1) retry s =
      pollLoop t o fuel (retry + 1)
        { sweepOnce t o retry s with
            sweeps := (sweepOnce t o retry s).sweeps + 1 } := by
  conv_lhs => rw [pollLoop]
  rw [if_pos h]

/-- Unfolding: the outer loop stops when the retry budget is exhausted or
the alarm (or the abort flag) is set. -/
theorem pollLoop_succ_stop (t : List MbParameterDescriptor) (o : Transport)
    (fuel retry : Nat) (s : PollState)
    (h : ¬(retry ≤ MASTER_MAX_RETRY ∧ s.alarm = false ∧ s.crashed = false)) :
    pollLoop t o (fuel + 1) retry s = s := by
  conv_lhs => rw [pollLoop]
  rw [if_neg h]

/-- The outer loop starts at most `fuel` sweeps. -/
theorem pollLoop_sweeps_le (t : List MbParameterDescriptor) (o : Transport) :
    ∀ (fuel retry : Nat) (s : PollState),
    (pollLoop t o fuel retry s).sweeps ≤ s.sweeps + fuel := by
  intro fuel
  induction fuel with
  | zero => intro retry s; simp [pollLoop]
  | succ f ih =>
    intro retry s
    by_cases h : retry ≤ MASTER_MAX_RETRY ∧ s.alarm = false ∧
        s.crashed = false
    · rw [pollLoop_succ_go t o f retry s h]
      have h2 := ih (retry + 1)
        { sweepOnce t o retry s with
            sweeps := (sweepOnce t o retry s).sweeps + 1 }
      have h0 : ({ sweepOnce t o retry s with
          sweeps := (sweepOnce t o retry s).sweeps + 1 } : PollState).sweeps
          = (sweepOnce t o retry s).sweeps + 1 := rfl
      have h1 : (sweepOnce t o retry s).sweeps = s.sweeps :=
        sweepAux_sweeps t o retry t.length 0 s
      omega
    · rw [pollLoop_succ_stop t o f retry s h]
      omega

/-- The outer loop performs at most `fuel * N` reads (N the table size). -/
theorem pollLoop_reads_le (t : List MbParameterDescriptor) (o : Transport) :
    ∀ (fuel retry : Nat) (s : PollState),
    (pollLoop t o fuel retry s).reads ≤ s.reads + fuel * t.length := by
  intro fuel
  induction fuel with
  | zero => intro retry s; simp [pollLoop]
  | succ f ih =>
    intro retry s
    by_cases h : retry ≤ MASTER_MAX_RETRY ∧ s.alarm = false ∧
        s.crashed = false
    · rw [pollLoop_succ_go t o f retry s h]
      have h2 := ih (retry + 1)
        { sweepOnce t o retry s with
            sweeps := (sweepOnce t o retry s).sweeps + 1 }
      have h0 : ({ sweepOnce t o retry s with
          sweeps := (sweepOnce t o retry s).sweeps + 1 } : PollState).reads
          = (sweepOnce t o retry s).reads := rfl
      have h1 : (sweepOnce t o retry s).reads ≤ s.reads + t.length :=
        sweepAux_reads_le t o retry t.length 0 s
      have h3 : (f + 1) * t.length = f * t.length + t.length := by ring
      omega
    · rw [pollLoop_succ_stop t o f retry s h]
      omega

/-- On a table whose descriptors all have nonzero offsets, the outer loop
never trips the abort flag. -/
theorem pollLoop_crashed (t : List MbParameterDescriptor) (o : Transport)
    (hvalid : ∀ d ∈ t, d.param_offset ≠ 0) :
    ∀ (fuel retry : Nat) (s : PollState),
    (pollLoop t o fuel retry s).crashed = s.crashed := by
  intro fuel
  induction fuel with
  | zero => intro retry s; rfl
  | succ f ih =>
    intro retry s
    by_cases h : retry ≤ MASTER_MAX_RETRY ∧ s.alarm = false ∧
        s.crashed = false
    · rw [pollLoop_succ_go t o f retry s h, ih]
      exact sweepAux_crashed t o retry hvalid t.length 0 s
    · rw [pollLoop_succ_stop t o f retry s h]

/-- When the whole run ends with the alarm clear and no abort, every one of
its `fuel` permitted sweeps was started (the loop only stops early on alarm
or abort once the fuel mirrors the remaining retry budget). -/
theorem pollLoop_full_sweeps (t : List MbParameterDescriptor)
    (o : Transport) : ∀ (fuel retry : Nat) (s : PollState),
    retry + fuel = MASTER_MAX_RETRY + 1 →
    (pollLoop t o fuel retry s).alarm = false →
    (pollLoop t o fuel retry s).crashed = false →
    (pollLoop t o fuel retry s).sweeps = s.sweeps + fuel := by
  intro fuel
  induction fuel with
  | zero => intro retry s _ _ _; rfl
  | succ f ih =>
    intro retry s hfuel halarm hcrash
    by_cases h : retry ≤ MASTER_MAX_RETRY ∧ s.alarm = false ∧
        s.crashed = false
    · rw [pollLoop_succ_go t o f retry s h] at halarm hcrash ⊢
      have h2 := ih (retry + 1)
        { sweepOnce t o retry s with
            sweeps := (sweepOnce t o retry s).sweeps + 1 }
        (by omega) halarm hcrash
      have h0 : ({ sweepOnce t o retry s with
          sweeps := (sweepOnce t o retry s).sweeps + 1 } : PollState).sweeps
          = (sweepOnce t o retry s).sweeps + 1 := rfl
      have h1 : (sweepOnce t o retry s).sweeps = s.sweeps :=
        sweepAux_sweeps t o retry t.length 0 s
      omega
    · rw [pollLoop_succ_stop t o f retry s h] at halarm hcrash
      exact absurd ⟨by omega, halarm, hcrash⟩ h

/-- Once the device-side echo register holds the sentinel pattern, the
outer loop performs no write and preserves the pattern. -/
theorem pollLoop_echo_inv (t : List MbParameterDescriptor) (o : Transport) :
    ∀ (fuel retry : Nat) (s : PollState),
    s.devEcho = ECHO_PATTERN →
    (pollLoop t o fuel retry s).devEcho = ECHO_PATTERN ∧
    (pollLoop t o fuel retry s).writes = s.writes := by
  intro fuel
  induction fuel with
  | zero => intro retry s hEcho; exact ⟨hEcho, rfl⟩
  | succ f ih =>
    intro retry s hEcho
    by_cases h : retry ≤ MASTER_MAX_RETRY ∧ s.alarm = false ∧
        s.crashed = false
    · rw [pollLoop_succ_go t o f retry s h]
      have hsweep := sweepAux_echo_inv t o retry t.length 0 s hEcho
      have h2 := ih (retry + 1)
        { sweepOnce t o retry s with
            sweeps := (sweepOnce t o retry s).sweeps + 1 } hsweep.1
      refine ⟨h2.1, ?_⟩
      have h0 : ({ sweepOnce t o retry s with
          sweeps := (sweepOnce t o retry s).sweeps + 1 } : PollState).writes
          = (sweepOnce t o retry s).writes := rfl
      rw [h2.2, h0]
      exact hsweep.2
    · rw [pollLoop_succ_stop t o f retry s h]
      exact ⟨hEcho, rfl⟩

/-- C1 (amended): `run_polling_cycle` (`master_operation_func`) on a table
with N defined characteristics performs at most N reads per sweep and at
most R+1 sweeps, where R = MASTER_MAX_RETRY (the loop guard is
`retry <= MASTER_MAX_RETRY`, so the retry budget permits R+1 sweeps, not
R); if the run ends with the alarm clear it performs exactly R+1 sweeps,
and it performs fewer than R+1 sweeps only if the alarm flag was set
during a sweep. -/
theorem C1_polling_bounds (t : List MbParameterDescriptor) (o : Transport)
    (st0 : Loc → Int) (e0 : Int)
    (hvalid : ∀ d ∈ t, d.param_offset ≠ 0) :
    (∀ (retry : Nat) (s : PollState),
        (sweepOnce t o retry s).reads ≤ s.reads + t.length) ∧
    (master_operation_func t o st0 e0).sweeps ≤ MASTER_MAX_RETRY + 1 ∧
    (master_operation_func t o st0 e0).reads
      ≤ (MASTER_MAX_RETRY + 1) * t.length ∧
    ((master_operation_func t o st0 e0).alarm = false →
      (master_operation_func t o st0 e0).sweeps = MASTER_MAX_RETRY + 1) ∧
    ((master_operation_func t o st0 e0).sweeps < MASTER_MAX_RETRY + 1 →
      (master_operation_func t o st0 e0).alarm = true) := by
  have hc : (master_operation_func t o st0 e0).crashed = false := by
    have h := pollLoop_crashed t o hvalid (MASTER_MAX_RETRY + 1) 0
      (initState st0 e0)
    simpa [master_operation_func, initState] using h
  have h4 : (master_operation_func t o st0 e0).alarm = false →
      (master_operation_func t o st0 e0).sweeps = MASTER_MAX_RETRY + 1 := by
    intro halarm
    have h := pollLoop_full_sweeps t o (MASTER_MAX_RETRY + 1) 0
      (initState st0 e0) (by omega) halarm hc
    simpa [master_operation_func, initState] using h
  refine ⟨?_, ?_, ?_, h4, ?_⟩
  · intro retry s
    exact sweepAux_reads_le t o retry t.length 0 s
  · have h := pollLoop_sweeps_le t o (MASTER_MAX_RETRY + 1) 0
      (initState st0 e0)
    simpa [master_operation_func, initState] using h
  · have h := pollLoop_reads_le t o (MASTER_MAX_RETRY + 1) 0
      (initState st0 e0)
    simpa [master_operation_func, initState] using h
  · intro hs
    cases hb : (master_operation_func t o st0 e0).alarm
    · rw [h4 hb] at hs
      omega
    · rfl

/-- Counterexample to C1 as stated: on the repository's own one-entry
table, with a transport on which every read succeeds with the in-limits
value 0 (so the alarm never trips), the run starts
MASTER_MAX_RETRY + 1 = 4 sweeps — more than the claimed bound of
MASTER_MAX_RETRY sweeps. -/
theorem C1_sweeps_exceed_retry_count :
    (master_operation_func device_parameters orcQuiet zeroStorage 0).sweeps
      = MASTER_MAX_RETRY + 1 ∧
    ¬ ((master_operation_func device_parameters orcQuiet zeroStorage
          0).sweeps ≤ MASTER_MAX_RETRY) := by
  have h : (master_operation_func device_parameters orcQuiet zeroStorage
      0).sweeps = 4 := rfl
  exact ⟨h, by rw [h]; decide⟩

/-- Witness for C1: the amended bounds instantiated on the repository's
table with an always-in-limits transport. -/
theorem C1_polling_bounds_witness :
    (master_operation_func device_parameters orcQuiet zeroStorage 0).sweeps
      ≤ MASTER_MAX_RETRY + 1 ∧
    ((master_operation_func device_parameters orcQuiet zeroStorage 0).alarm
        = false →
      (master_operation_func device_parameters orcQuiet zeroStorage
          0).sweeps = MASTER_MAX_RETRY + 1) ∧
    (master_operation_func device_parameters orcQuiet zeroStorage 0).reads
      ≤ (MASTER_MAX_RETRY + 1) * device_parameters.length :=
  ⟨(C1_polling_bounds device_parameters orcQuiet zeroStorage 0
      (by decide)).2.1,
   (C1_polling_bounds device_parameters orcQuiet zeroStorage 0
      (by decide)).2.2.2.1,
   (C1_polling_bounds device_parameters orcQuiet zeroStorage 0
      (by decide)).2.2.1⟩

/-- C9: once the echo/test characteristic's storage has been filled with
the sentinel pattern and successfully written back to the device, the
write-back has happened exactly once in the sense that every later sweep
that reads it finds the pattern already present and performs no further
write: a successful fill-and-write-back increments the write counter once
and establishes the device-side pattern, a read that finds the pattern
performs no write, and from any state in which the device already holds
the pattern the whole remaining run performs zero writes. -/
theorem C9_echo_write_once (t : List MbParameterDescriptor)
    (o : Transport) :
    (∀ (retry : Nat) (d : MbParameterDescriptor) (s : PollState),
      d.param_type = ParamType.ascii → d.cid = CID_HOLD_TEST_REG →
      d.param_offset ≠ 0 →
      o.readErr retry d.cid = EspErr.ok →
      o.writeErr retry d.cid = EspErr.ok →
      s.devEcho ≠ ECHO_PATTERN →
      (charStep o retry d s).1.writes = s.writes + 1 ∧
      (charStep o retry d s).1.devEcho = ECHO_PATTERN) ∧
    (∀ (retry : Nat) (d : MbParameterDescriptor) (s : PollState),
      d.param_type = ParamType.ascii → d.cid = CID_HOLD_TEST_REG →
      d.param_offset ≠ 0 →
      o.readErr retry d.cid = EspErr.ok →
      s.devEcho = ECHO_PATTERN →
      (charStep o retry d s).1.writes = s.writes ∧
      (charStep o retry d s).1.storage (d.mb_param_type, d.param_offset - 1)
        = ECHO_PATTERN) ∧
    (∀ (fuel retry : Nat) (s : PollState),
      s.devEcho = ECHO_PATTERN →
      (pollLoop t o fuel retry s).writes = s.writes ∧
      (pollLoop t o fuel retry s).devEcho = ECHO_PATTERN) := by
  refine ⟨?_, ?_, ?_⟩
  · intro retry d s hascii hcid hoff hrd hwr hne
    have hres : master_get_param_data d
        = Except.ok (d.mb_param_type, d.param_offset - 1) := by
      simp [master_get_param_data, hoff]
    have hrd2 : o.readErr retry CID_HOLD_TEST_REG = EspErr.ok := by
      rw [← hcid]; exact hrd
    have hwr2 : o.writeErr retry CID_HOLD_TEST_REG = EspErr.ok := by
      rw [← hcid]; exact hwr
    constructor <;>
      simp [charStep, hres, hascii, hcid, hrd2, hwr2, setLoc_self, hne]
  · intro retry d s hascii hcid hoff hrd hEcho
    have hres : master_get_param_data d
        = Except.ok (d.mb_param_type, d.param_offset - 1) := by
      simp [master_get_param_data, hoff]
    have hrd2 : o.readErr retry CID_HOLD_TEST_REG = EspErr.ok := by
      rw [← hcid]; exact hrd
    constructor <;>
      simp [charStep, hres, hascii, hcid, hrd2, setLoc_self, hEcho]
  · intro fuel retry s hEcho
    exact ⟨(pollLoop_echo_inv t o fuel retry s hEcho).2,
           (pollLoop_echo_inv t o fuel retry s hEcho).1⟩

/-- Witness for C9: a first read of the echo characteristic (device value
0, not the pattern) performs the single fill-and-write-back; afterwards
the device holds the pattern and a subsequent read performs no write, and
an entire polling run started with the pattern present performs zero
writes. -/
theorem C9_echo_write_once_witness :
    (charStep orcQuiet 0 hold_test_desc (initState zeroStorage 0)).1.writes
      = 1 ∧
    (charStep orcQuiet 0 hold_test_desc (initState zeroStorage 0)).1.devEcho
      = ECHO_PATTERN ∧
    (charStep orcQuiet 0 hold_test_desc
        (initState zeroStorage ECHO_PATTERN)).1.writes = 0 ∧
    (pollLoop device_parameters orcQuiet (MASTER_MAX_RETRY + 1) 0
        (initState zeroStorage ECHO_PATTERN)).writes = 0 :=
  ⟨((C9_echo_write_once device_parameters orcQuiet).1 0 hold_test_desc
      (initState zeroStorage 0) rfl rfl (by decide) rfl rfl (by decide)).1,
   ((C9_echo_write_once device_parameters orcQuiet).1 0 hold_test_desc
      (initState zeroStorage 0) rfl rfl (by decide) rfl rfl (by decide)).2,
   ((C9_echo_write_once device_parameters orcQuiet).2.1 0 hold_test_desc
      (initState zeroStorage ECHO_PATTERN) rfl rfl (by decide) rfl rfl).1,
   ((C9_echo_write_once device_parameters orcQuiet).2.2
      (MASTER_MAX_RETRY + 1) 0 (initState zeroStorage ECHO_PATTERN)
      rfl).1⟩

end CcsEsp32
